import Mathlib

/-
Verification of the schema-registry-operator reconciliation core.

The Go sources are shallowly embedded: pure helpers become Lean functions,
the controllers' reconcile bodies become explicit state-passing functions
over small store/response environments, uint32 arithmetic is Nat with
explicit `% 2 ^ 32`, and fallible Go code returns `Except`/`Option`.
-/

namespace SRO

/-- FNV-1a 32-bit offset basis, as used by Go's `hash/fnv` `New32a()`
(`src/pkg/hash/hash.go` builds the hash with `fnv.New32a()`). -/
def fnvOffsetBasis : Nat := 2166136261

/-- FNV-1a 32-bit prime, as used by Go's `hash/fnv`. -/
def fnvPrime : Nat := 16777619

/-- One step of the FNV-1a fold: xor the next byte into the state, multiply by
the prime, reduce modulo 2^32 (Go's uint32 overflow semantics). -/
def fnvStep (h b : Nat) : Nat := ((h ^^^ b) * fnvPrime) % 2 ^ 32

/-- Folding FNV-1a over a byte list starting from an arbitrary state. -/
def fnvFoldFrom (h : Nat) (bs : List Nat) : Nat := bs.foldl fnvStep h

/-- FNV-1a 32-bit of a byte sequence, i.e. `h := fnv.New32a(); h.Write(bs); h.Sum32()`. -/
def hashBytes (bs : List Nat) : Nat := fnvFoldFrom fnvOffsetBasis bs

/-- The UTF-8 bytes of a string, i.e. Go's `[]byte(s)` conversion. -/
def stringBytes (s : String) : List Nat :=
  (s.data.flatMap String.utf8EncodeChar).map UInt8.toNat

/-- Embeds `Hash` from `src/pkg/hash/hash.go`: FNV-1a 32-bit over the UTF-8
bytes of the payload.  The Go version returns `(uint32, error)` but
`fnv`'s `Write` never fails, so the error branch is unreachable and the
embedding returns the hash directly. -/
def Hash (s : String) : Nat := hashBytes (stringBytes s)

/-- Spec of the Schema resource (`SchemaSpec`, `src/unnamed/part_000` lines 89-124).
The Go field `Type` is rendered `schemaType`. -/
structure SchemaSpec where
  subject : String
  target : String
  schemaType : String
  content : String
  compatibilityLevel : String
  normalize : Bool
  syncInterval : Nat
deriving DecidableEq

/-- Status of the Schema resource (`SchemaStatus`, `src/unnamed/part_000` lines 134-149).
`LastTransitionTime` is wall-clock time and is not modelled; `LatestVersion` is a
registry version ordinal, always non-negative, so it is a Nat. -/
structure SchemaStatus where
  latestVersion : Nat
  message : String
  schemaRegistryError : String
  ready : Bool
deriving DecidableEq

/-- The slice of Kubernetes object metadata the reconcilers read or write:
name, namespace (`ns`), the registry-instance label, the content-hash label,
the previous-active-version marker (the metadata entry named by
`PreviousActiveSchemaVersionAnnotationName` in the source), and the presence
of the Schema finalizer and of a deletion timestamp.  Label/marker absence is
`none`, matching Go's `value, ok := m[k]` map lookups. -/
structure ObjectMeta where
  name : String
  ns : String
  instanceLabel : Option String
  contentHashLabel : Option String
  prevActiveVersionAnn : Option String
  hasSchemaFinalizer : Bool
  hasDeletionTimestamp : Bool
deriving DecidableEq

/-- A Schema object as stored in the cluster. -/
structure Schema where
  meta : ObjectMeta
  spec : SchemaSpec
  status : SchemaStatus
deriving DecidableEq

/-- Go's `strings.ToLower` as the code applies it: a character-wise lowering
of the string.  The target field only ever holds the ASCII enum values
VALUE/KEY, on which `Char.toLower` agrees with Go's Unicode lowering. -/
def lowerString (s : String) : String := ⟨s.data.map Char.toLower⟩

/-- Embeds `Schema.GetSubject` (`src/unnamed/part_000` lines 195-198):
`s.Spec.Subject + "-" + strings.ToLower(s.Spec.Target)`. -/
def GetSubject (s : Schema) : String := s.spec.subject ++ "-" ++ lowerString s.spec.target

/-- Embeds the subject-defaulting step of the Schema reconcilers
(`src/internal/controller/schema_controller.go` lines 124-126 and
`src/unnamed/part_005` lines 111-113): an empty `spec.subject` is replaced by
the object name before the subject is used. -/
def defaultSubject (s : Schema) : Schema :=
  if s.spec.subject = "" then { s with spec := { s.spec with subject := s.meta.name } } else s

/-- Embeds `Schema.UpdateStatus` (`src/unnamed/part_000` lines 189-193); the
wall-clock `LastTransitionTime` write is not modelled. -/
def UpdateStatus (s : Schema) (ready : Bool) (message : String) : Schema :=
  { s with status := { s.status with ready := ready, message := message } }

/-- Embeds `Updated` (`src/unnamed/part_008` lines 16-24): true when the
content-hash label is absent or differs from `strconv.Itoa(int(newHash))`,
the decimal rendering of the current content hash.  `contentHashLabel` is the
label value as found on the object's metadata.  The hash never fails (see
`Hash`), so the error result is dropped. -/
def Updated (contentHashLabel : Option String) (content : String) : Bool :=
  match contentHashLabel with
  | none => true
  | some v => v != toString (Hash content)

/-- Embeds `NotUpdated` (`src/internal/controller/utils.go` lines 11-19):
true when the content-hash label exists and equals the decimal rendering of
the current content hash. -/
def NotUpdated (contentHashLabel : Option String) (content : String) : Bool :=
  match contentHashLabel with
  | none => false
  | some v => v == toString (Hash content)

/-- Embeds `isSubjectUnique` (`src/internal/controller/schema_controller.go`
lines 231-253) and the identical `Schema.IsSubjectUnique`
(`src/unnamed/part_000` lines 33-53): list every Schema in the same namespace
carrying the registry-instance label equal to the registry's name, and return
false as soon as any listed object's `GetSubject` equals this schema's.
`store` is the cluster's list result, i.e. all stored Schema objects. -/
def isSubjectUnique (store : List Schema) (s : Schema) (registryName : String) : Bool :=
  let matching := store.filter
    (fun o => o.meta.ns == s.meta.ns && o.meta.instanceLabel == some registryName)
  !(matching.any (fun o => GetSubject o == GetSubject s))

/-- Go error values reachable in the embedded code paths.  `wrapSuffix b m`
is `fmt.Errorf("%w: %s", b, m)` (used by `NewIncompatibleSchemaError` and
`NewInvalidSchemaOrTypeError`), `wrapPrefix m b` is `fmt.Errorf("%s: %w", m, b)`
shaped wrapping such as `fmt.Errorf("failed to delete schema: %w", err)`,
`transportErr` is an opaque error returned by the HTTP client itself,
`unknownGetSchemaErr` is `fmt.Errorf("unknown error, failed to get schema: %w", err)`
whose wrapped error may be nil, and the remaining constructors are the
sentinel errors of `src/unnamed/part_004` / `src/internal/controller/errors.go`. -/
inductive GoError where
  | errInstanceLabelNotFound : GoError
  | errInstanceNotFound : GoError
  | errIncompatibleSchema : GoError
  | errInvalidSchemaOrType : GoError
  | errInvalidSchemaVersionModification : GoError
  | errParse (s : String) : GoError
  | errStoreNotFound (name : String) : GoError
  | errStoreConflict (name : String) : GoError
  | transportErr (m : String) : GoError
  | unknownGetSchemaNilErr : GoError
  | unknownGetSchemaErr (inner : GoError) : GoError
  | wrapSuffix (base : GoError) (m : String) : GoError
  | wrapPrefix (m : String) (base : GoError) : GoError
deriving DecidableEq

/-- The `Error()` string of an embedded Go error, following the sentinel texts
of `src/unnamed/part_004` and `fmt.Errorf`'s rendering of `%w`-wrapping. -/
def errorText : GoError → String
  | .errInstanceLabelNotFound => "instance label not found"
  | .errInstanceNotFound => "schema registry instance not found"
  | .errIncompatibleSchema => "incompatible schema"
  | .errInvalidSchemaOrType => "invalid schema or schema type"
  | .errInvalidSchemaVersionModification =>
      "no previous active schema version found, SchemaVersion has been modified manually"
  | .errParse s => "parse error: " ++ s
  | .errStoreNotFound name => "not found: " ++ name
  | .errStoreConflict name => "already exists: " ++ name
  | .transportErr m => m
  | .unknownGetSchemaNilErr => "unknown error, failed to get schema"
  | .unknownGetSchemaErr inner => "unknown error, failed to get schema: " ++ errorText inner
  | .wrapSuffix base m => errorText base ++ ": " ++ m
  | .wrapPrefix m base => m ++ ": " ++ errorText base

/-- Go's `errors.Unwrap`: only `%w`-wrapping errors unwrap. -/
def errorsUnwrap : GoError → Option GoError
  | .wrapSuffix base _ => some base
  | .wrapPrefix _ base => some base
  | .unknownGetSchemaErr inner => some inner
  | _ => none

/-- Go's `errors.Is` restricted to the sentinel comparisons the code performs:
walk the unwrap chain looking for the target. -/
def errorsIs : GoError → GoError → Bool
  | e, t =>
    e == t ||
      match e with
      | .wrapSuffix base _ => errorsIs base t
      | .wrapPrefix _ base => errorsIs base t
      | .unknownGetSchemaErr base => errorsIs base t
      | _ => false

/-- Embeds `NewIncompatibleSchemaError` (`src/unnamed/part_004` lines 16-18). -/
def NewIncompatibleSchemaError (m : String) : GoError := .wrapSuffix .errIncompatibleSchema m

/-- Embeds `NewInvalidSchemaOrTypeError` (`src/unnamed/part_004` lines 20-22). -/
def NewInvalidSchemaOrTypeError (m : String) : GoError := .wrapSuffix .errInvalidSchemaOrType m

/-- The registry's view of a schema as returned by the fetch-latest endpoint
(`srclient.Schema`: assigned version ordinal and internal id). -/
structure SrSchema where
  version : Nat
  id : Nat
deriving DecidableEq

/-- The registry's behaviour during one `deploySchema` call: the outcome of
the register request (a transport error, or an HTTP status together with the
response-body messages the code reads on 422/409) and the outcome of the
subsequent fetch-latest request. -/
structure RegistryEnv where
  registerTransportError : Option String
  registerStatus : Nat
  register422Message : String
  register409Message : String
  getLatestTransportError : Option String
  getLatestStatus : Nat
  getLatestSchema : SrSchema
deriving DecidableEq

/-- Embeds `deploySchema` (`src/internal/controller/schema_controller.go`
lines 255-292, identical in `src/unnamed/part_005`): register the subject,
map HTTP 422 to `NewInvalidSchemaOrTypeError` and HTTP 409 to
`NewIncompatibleSchemaError` (message taken from the response body), then for
any other register status fetch the latest schema and fail with the unknown
error unless that fetch returns 200.  `schema` carries the request payload
(subject, content, type, normalize); the outcome is determined by `env`. -/
def deploySchema (schema : Schema) (env : RegistryEnv) : Except GoError SrSchema :=
  match env.registerTransportError with
  | some m => .error (.transportErr m)
  | none =>
    if env.registerStatus = 422 then .error (NewInvalidSchemaOrTypeError env.register422Message)
    else if env.registerStatus = 409 then .error (NewIncompatibleSchemaError env.register409Message)
    else
      match env.getLatestTransportError with
      | some m => .error (.unknownGetSchemaErr (.transportErr m))
      | none =>
        if env.getLatestStatus ≠ 200 then .error .unknownGetSchemaNilErr
        else .ok env.getLatestSchema

/-- Number of HTTP calls `deploySchema` makes against the registry under `env`:
the register call always happens; the fetch-latest call only happens when the
register call produced no transport error and a status other than 422/409. -/
def deploySchemaCalls (env : RegistryEnv) : Nat :=
  match env.registerTransportError with
  | some _ => 1
  | none => if env.registerStatus = 422 ∨ env.registerStatus = 409 then 1 else 2

/-- Constant `SchemaDeployedSuccess` from the Schema controllers. -/
def SchemaDeployedSuccess : String := "Schema deployed successfully"

/-- Embeds `upsert` (`src/internal/controller/schema_controller.go` lines
194-229).  On a deploy error, when `errors.Is` finds the incompatible/invalid
sentinel, the status field `SchemaRegistryError` is set to
`errors.Unwrap(err).Error()` — the unwrapped sentinel's text; then the status
becomes not-ready with the fixed failure message and the result is a 1-minute
requeue carrying the error.  On success the status becomes ready with
`SchemaDeployedSuccess`, `LatestVersion` is taken from the registry response,
and the result is a requeue after `syncInterval` seconds.  Status writes to
the store are assumed to succeed.  Returns the written-back schema, the
requeue delay in seconds, and the propagated error. -/
def upsert (schema : Schema) (registryName : String) (env : RegistryEnv) :
    Schema × Option Nat × Option GoError :=
  match deploySchema schema env with
  | .error e =>
    let schema :=
      if errorsIs e .errIncompatibleSchema || errorsIs e .errInvalidSchemaOrType then
        { schema with status :=
          { schema.status with schemaRegistryError := errorText ((errorsUnwrap e).getD e) } }
      else schema
    let schema := UpdateStatus schema false
      ("Failed to deploy schema to Schema Registry: " ++ registryName)
    (schema, some 60, some e)
  | .ok sr =>
    let schema := UpdateStatus schema true SchemaDeployedSuccess
    let schema := { schema with status := { schema.status with latestVersion := sr.version } }
    (schema, some schema.spec.syncInterval, none)

/-- The registry's behaviour during one subject-deletion pass: transport
errors (nil or not) of the soft and of the permanent `DeleteSubject` calls,
and the HTTP statuses of the two responses.  The source discards both
responses (`_, err = ...`), so the statuses can never influence the result. -/
structure DeleteSubjectEnv where
  softTransportError : Option String
  softStatus : Nat
  hardTransportError : Option String
  hardStatus : Nat
deriving DecidableEq

/-- Embeds `delete` (`src/internal/controller/schema_controller.go` lines
164-192): soft-delete the subject; a transport error there is wrapped and
returned at once (one registry call, no permanent attempt).  Otherwise the
permanent delete is attempted and its own transport error is only logged,
never propagated.  HTTP response statuses are never inspected.  Returns the
outcome and the number of registry calls made. -/
def deleteSchemaSubject (schema : Schema) (env : DeleteSubjectEnv) :
    Except GoError Unit × Nat :=
  match env.softTransportError with
  | some m => (.error (.wrapPrefix "failed to delete schema" (.transportErr m)), 1)
  | none =>
    match env.hardTransportError with
    | some _ => (.ok (), 2)
    | none => (.ok (), 2)

/-- Embeds the deletion branch of the Schema reconciler
(`src/internal/controller/schema_controller.go` lines 110-122): when a
deletion timestamp is observed, run `delete`; on its error requeue after one
minute with the error; on success remove the finalizer from the object
(the follow-up `r.Update` store write is assumed to succeed).  Returns the
written-back schema, the requeue delay, the propagated error, and the number
of registry calls. -/
def reconcileDeletionBranch (schema : Schema) (env : DeleteSubjectEnv) :
    Schema × Option Nat × Option GoError × Nat :=
  match deleteSchemaSubject schema env with
  | (.error e, calls) => (schema, some 60, some e, calls)
  | (.ok _, calls) =>
    ({ schema with meta := { schema.meta with hasSchemaFinalizer := false } }, none, none, calls)

/-- A SchemaRegistry instance resolvable in the cluster, identified by name
and namespace (only the identity matters to the embedded paths). -/
structure SchemaRegistry where
  name : String
  ns : String
deriving DecidableEq

/-- Embeds `FetchSchemaRegistryInstance` (`src/internal/controller/utils.go`
lines 33-56 / `src/unnamed/part_008` lines 26-49): read the instance label
from the object's metadata; absence yields `(nil, retry=true, ErrInstanceLabelNotFound)`
after a not-ready status write on the object; a label naming an instance that
is not stored yields `ErrInstanceNotFound` (with `retry=true` in the
`utils.go` revision).  Returns `(instance?, retry, error?)` like the Go triple. -/
def FetchSchemaRegistryInstance (meta : ObjectMeta) (registries : List SchemaRegistry) :
    Option SchemaRegistry × Bool × Option GoError :=
  match meta.instanceLabel with
  | none => (none, true, some .errInstanceLabelNotFound)
  | some inst =>
    match registries.find? (fun r => r.name == inst && r.ns == meta.ns) with
    | none => (none, true, some .errInstanceNotFound)
    | some r => (some r, false, none)

/-- Spec of the SchemaVersion resource as populated by `createSchemaVersion`
(`src/unnamed/part_005` lines 286-310). -/
structure SchemaVersionSpec where
  subject : String
  version : Nat
  content : String
  schemaRegistrySchemaId : Nat
deriving DecidableEq

/-- Observed state of a SchemaVersion: the `Active` and `Ready` status bits. -/
structure SVStatus where
  active : Bool
  ready : Bool
deriving DecidableEq

/-- A SchemaVersion object as stored in the cluster. -/
structure SchemaVersion where
  meta : ObjectMeta
  spec : SchemaVersionSpec
  status : SVStatus
deriving DecidableEq

/-- Lookup of a SchemaVersion by namespaced name in a list-shaped store,
i.e. the cluster `Get`. -/
def svGet (store : List SchemaVersion) (ns name : String) : Option SchemaVersion :=
  store.find? (fun o => o.meta.ns == ns && o.meta.name == name)

/-- A status write against the SchemaVersion store: replace the object with
the same namespaced name. -/
def svPut (store : List SchemaVersion) (sv : SchemaVersion) : List SchemaVersion :=
  store.map (fun o => if o.meta.ns == sv.meta.ns && o.meta.name == sv.meta.name then sv else o)

/-- Error-classification data of a Go client error as consulted by
`apierrors.IsNotFound` / `apierrors.IsInvalid` in
`src/internal/controller/schemaversion_controller.go`. -/
structure GoTransportError where
  message : String
  k8sNotFound : Bool
  k8sInvalid : Bool
deriving DecidableEq

/-- The registry's behaviour during one `deleteSchemaVersion` pass: the client
errors (nil or not) of the soft and of the permanent `DeleteSchemaVersion`
calls, and the `ErrorCode` field the code dereferences from the 404-shaped
body of the soft-delete response. -/
structure DeleteVersionEnv where
  softError : Option GoTransportError
  softRespErrorCode : Nat
  hardError : Option GoTransportError
deriving DecidableEq

/-- Go's `apierrors.IsNotFound(err) || apierrors.IsInvalid(err)` on an
optional client error. -/
def isNotFoundOrInvalid (e : Option GoTransportError) : Bool :=
  match e with
  | some t => t.k8sNotFound || t.k8sInvalid
  | none => false

/-- Constant `SchemaVersionWasSoftDeleted` from
`src/internal/controller/schemaversion_controller.go` line 45. -/
def SchemaVersionWasSoftDeleted : Nat := 40406

/-- Embeds `deleteSchemaVersion` (`src/internal/controller/schemaversion_controller.go`
lines 111-151): soft-delete the `(subject, version)` pair; when the soft call's
error classifies as not-found/invalid and the response body's error code is
not 40406 ("was soft deleted"), stop successfully; otherwise attempt the
permanent delete, whose not-found/invalid classification is success and whose
error is otherwise returned (nil when the call produced no client error).
Returns the outcome and the number of registry calls made. -/
def deleteSchemaVersion (sv : SchemaVersion) (env : DeleteVersionEnv) :
    Option GoError × Nat :=
  if isNotFoundOrInvalid env.softError &&
      !(env.softRespErrorCode == SchemaVersionWasSoftDeleted) then
    (none, 1)
  else
    if isNotFoundOrInvalid env.hardError then (none, 2)
    else
      match env.hardError with
      | some t => (some (.transportErr t.message), 2)
      | none => (none, 2)

/-- The zero value of `clientv1alpha1.SchemaVersion`, which is what the
`schemaVersion` variable holds in the deletion branch of the SchemaVersion
reconciler after `r.Get` returned NotFound: no labels, no name, no spec. -/
def zeroSchemaVersion : SchemaVersion :=
  { meta := { name := "", ns := "", instanceLabel := none, contentHashLabel := none,
              prevActiveVersionAnn := none, hasSchemaFinalizer := false,
              hasDeletionTimestamp := false },
    spec := { subject := "", version := 0, content := "", schemaRegistrySchemaId := 0 },
    status := { active := false, ready := false } }

/-- Embeds the deletion-event path of `SchemaVersionReconciler.Reconcile`
(`src/internal/controller/schemaversion_controller.go` lines 66-109): the
`Get` for the reconciled name returns NotFound (the object is already gone),
leaving `schemaVersion` zero-valued; `FetchSchemaRegistryInstance` is then
called on that zero value's metadata, and only if it resolves an instance is
`deleteSchemaVersion` reached (on error the branch requeues after a minute).
Returns `(requeue delay, error?, registry calls)`.  `reqNs` is the namespace
of the reconcile request; `registries` the stored SchemaRegistry instances. -/
def svReconcileDeletionEvent (reqNs : String) (registries : List SchemaRegistry)
    (env : DeleteVersionEnv) : Option Nat × Option GoError × Nat :=
  let schemaVersion := zeroSchemaVersion
  match FetchSchemaRegistryInstance schemaVersion.meta registries with
  | (_, _, some e) => (none, some e, 0)
  | (some _, _, none) =>
    match deleteSchemaVersion schemaVersion env with
    | (some e, calls) => (some 60, some e, calls)
    | (none, calls) => (none, none, calls)
  | (none, _, none) => (none, none, 0)

/-- Go's `strconv.Atoi` for the values the previous-active-version marker can
hold (it is always written with `strconv.Itoa` of a non-negative int):
a non-empty digit string parses to its value, anything else fails. -/
def atoiNat (s : String) : Option Nat :=
  if s.data ≠ [] ∧ s.data.all Char.isDigit then
    some (s.data.foldl (fun acc c => acc * 10 + (c.toNat - 48)) 0)
  else none

/-- Embeds the legacy `SchemaVersionReconciler.Reconcile`
(`src/unnamed/part_007` lines 58-114) for a creation event on an object held
in `store`.  The fetched object is marked `Active=true, Ready=true` and
persisted.  When the previous-active-version marker is absent the condition
is logged as `ErrInvalidSchemaVersionModification` and reconciliation returns
nil; a marker of 0 also returns nil.  Otherwise the code builds the sibling
name by appending `"-v" + ordinal` to the NEW object's full name (line 96),
fetches that name into the very `schemaVersion` variable it just updated
(line 100), assigns `Active=false, Ready=true` to the still-fresh
`oldSchemaVersion` zero value (lines 105-106), and persists `schemaVersion`
(line 108) — i.e. writes the fetched object back unchanged.  Returns the
resulting store and the propagated error. -/
def svActivationReconcileLegacy (store : List SchemaVersion) (reqNs reqName : String) :
    List SchemaVersion × Option GoError :=
  match svGet store reqNs reqName with
  | none => (store, some (.errStoreNotFound reqName))
  | some sv =>
    let schemaVersion := { sv with status := { active := true, ready := true } }
    let store := svPut store schemaVersion
    match schemaVersion.meta.prevActiveVersionAnn with
    | none => (store, none)
    | some prev =>
      match atoiNat prev with
      | none => (store, some (.errParse prev))
      | some prevInt =>
        if prevInt = 0 then (store, none)
        else
          let oldName := schemaVersion.meta.name ++ "-v" ++ toString prevInt
          match svGet store reqNs oldName with
          | none => (store, some (.errStoreNotFound oldName))
          | some fetched => (svPut store fetched, none)

/-- The empty SchemaVersion child store of one subject, keyed by version
ordinal: the child of ordinal `k` is the object named
`GetSubject(schema) + "-v" + Itoa(k)` of `src/unnamed/part_005` lines 167 and
186, and `none` means no such object exists. -/
def emptyChildren : Nat → Option SVStatus := fun _ => none

/-- A status write against the child store of one subject. -/
def setChildStatus (c : Nat → Option SVStatus) (k : Nat) (st : SVStatus) :
    Nat → Option SVStatus :=
  fun m => if m = k then some st else c m

/-- Embeds the version-chaining block of the first `SchemaReconciler.Reconcile`
revision in `src/unnamed/part_005` (lines 163-199): the just-created child of
ordinal `v` is set `Active=true, Ready=true`; then, when the schema's recorded
`LatestVersion` (`latest`) is not 0, the child of ordinal `latest` is set
`Active=false, Ready=true`. -/
def versionChainStep (c : Nat → Option SVStatus) (latest v : Nat) : Nat → Option SVStatus :=
  let c1 := setChildStatus c v { active := true, ready := true }
  if latest = 0 then c1 else setChildStatus c1 latest { active := false, ready := true }

/-- N sequential successful Schema reconciliations for one subject, starting
from no children and `LatestVersion = 0`: each pass creates the fresh child
for the registry-assigned version ordinal, runs the version-chaining block
against the previously recorded `LatestVersion`, and records the new ordinal
as `LatestVersion` (`src/unnamed/part_005` lines 151-222).  `vs` is the
sequence of registry-assigned ordinals; the result is the child store and the
final recorded `LatestVersion`. -/
def runVersionChain (vs : List Nat) : (Nat → Option SVStatus) × Nat :=
  vs.foldl (fun p v => (versionChainStep p.1 p.2 v, v)) (emptyChildren, 0)

/-- Whether the child of ordinal `k` is currently active. -/
def childActive (c : Nat → Option SVStatus) (k : Nat) : Bool :=
  match c k with
  | some st => st.active
  | none => false

/-- Embeds `FetchSchemaRegistryInstance` in the `src/unnamed/part_008`
revision (lines 26-49), which differs from the `utils.go` revision only in
returning `retry = false` when the named instance is not stored. -/
def FetchSchemaRegistryInstanceP8 (meta : ObjectMeta) (registries : List SchemaRegistry) :
    Option SchemaRegistry × Bool × Option GoError :=
  match meta.instanceLabel with
  | none => (none, true, some .errInstanceLabelNotFound)
  | some inst =>
    match registries.find? (fun r => r.name == inst && r.ns == meta.ns) with
    | none => (none, false, some .errInstanceNotFound)
    | some r => (some r, false, none)

/-- The not-ready status message `FetchSchemaRegistryInstance` writes on the
object before returning each of its two errors. -/
def fetchFailureMessage (e : GoError) : String :=
  match e with
  | .errInstanceLabelNotFound => "Instance label: client.sroperator.io/instance not found"
  | _ => "Schema Registry instance not found"

/-- Result of one embedded Schema reconcile pass: the written-back schema,
the requeue delay in seconds (none when no requeue was scheduled), the
propagated error, and how many HTTP calls were made against the registry. -/
structure SchemaReconcileOutcome where
  schema : Schema
  requeueAfterSeconds : Option Nat
  err : Option GoError
  registryCalls : Nat
deriving DecidableEq

/-- Embeds `SchemaReconciler.Reconcile` of the first revision in
`src/unnamed/part_005` (lines 71-223) for an object present in the store.
In order: change detection via `Updated` with the idempotent fast path
(lines 92-109, re-affirm ready and requeue after a minute without touching
the registry); subject defaulting (lines 111-113); registry-instance
resolution (lines 115-130, status written per `fetchFailureMessage`, requeue
after a minute when retry is set, otherwise propagate); `deploySchema`
(lines 132-147, error handling as in `upsert`); creation of the SchemaVersion
child, which fails when a child of that ordinal already exists (lines
151-161); the version-chaining block (lines 163-199), whose lookup of the
previous child fails when no child of the recorded `LatestVersion` exists;
then the content-hash label commit and the ready status with the new
`LatestVersion` (lines 201-222), requeueing after a minute.  Store writes
are assumed to succeed. -/
def schemaReconcile (schema : Schema) (registries : List SchemaRegistry)
    (env : RegistryEnv) (children : Nat → Option SVStatus) :
    SchemaReconcileOutcome × (Nat → Option SVStatus) :=
  if !(Updated schema.meta.contentHashLabel schema.spec.content) && schema.status.ready then
    ({ schema := UpdateStatus schema true SchemaDeployedSuccess,
       requeueAfterSeconds := some 60, err := none, registryCalls := 0 }, children)
  else
    let schema := defaultSubject schema
    match FetchSchemaRegistryInstanceP8 schema.meta registries with
    | (_, retry, some e) =>
      let schema := UpdateStatus schema false (fetchFailureMessage e)
      if retry then
        ({ schema := schema, requeueAfterSeconds := some 60, err := none,
           registryCalls := 0 }, children)
      else
        ({ schema := schema, requeueAfterSeconds := none, err := some e,
           registryCalls := 0 }, children)
    | (some reg, _, none) =>
      match deploySchema schema env with
      | .error e =>
        let schema :=
          if errorsIs e .errIncompatibleSchema || errorsIs e .errInvalidSchemaOrType then
            { schema with status :=
              { schema.status with schemaRegistryError := errorText ((errorsUnwrap e).getD e) } }
          else schema
        let schema := UpdateStatus schema false
          ("Failed to deploy schema to Schema Registry: " ++ reg.name)
        ({ schema := schema, requeueAfterSeconds := some 60, err := some e,
           registryCalls := deploySchemaCalls env }, children)
      | .ok sr =>
        let version := sr.version
        if (children version).isSome then
          let schema := UpdateStatus schema false
            ("Failed to create new SchemaVersion CRD with version: " ++ toString version)
          ({ schema := schema, requeueAfterSeconds := some 60,
             err := some (.errStoreConflict (GetSubject schema ++ "-v" ++ toString version)),
             registryCalls := deploySchemaCalls env }, children)
        else
          let childrenNew := setChildStatus children version { active := true, ready := true }
          if schema.status.latestVersion ≠ 0 ∧
              (childrenNew schema.status.latestVersion).isNone then
            ({ schema := schema, requeueAfterSeconds := none,
               err := some (.errStoreNotFound
                 (GetSubject schema ++ "-v" ++ toString schema.status.latestVersion)),
               registryCalls := deploySchemaCalls env }, childrenNew)
          else
            let children2 := versionChainStep children schema.status.latestVersion version
            let schema := { schema with meta :=
              { schema.meta with contentHashLabel := some (toString (Hash schema.spec.content)) } }
            let schema := UpdateStatus schema true SchemaDeployedSuccess
            let schema := { schema with status :=
              { schema.status with latestVersion := version } }
            ({ schema := schema, requeueAfterSeconds := some 60, err := none,
               registryCalls := deploySchemaCalls env }, children2)
    | (none, _, none) =>
      ({ schema := schema, requeueAfterSeconds := none, err := none,
         registryCalls := 0 }, children)

/-- Modelled from the spec: the effective subject as the spec's words define
it — "subject string concatenated with the lowercased target", with "subject
(defaults to name)".  Compared below with what the code computes. -/
def specEffectiveSubject (name subject target : String) : String :=
  (if subject = "" then name else subject) ++ "-" ++ lowerString target

/-- A concrete Schema object: name `s1`, subject `s1`, target VALUE, carrying
the instance label for registry `sr1`, as a first reconcile would persist it. -/
def exampleSchemaS1 : Schema :=
  { meta := { name := "s1", ns := "default", instanceLabel := some "sr1",
              contentHashLabel := none, prevActiveVersionAnn := none,
              hasSchemaFinalizer := true, hasDeletionTimestamp := false },
    spec := { subject := "s1", target := "VALUE", schemaType := "AVRO",
              content := "avro-record-a", compatibilityLevel := "NONE",
              normalize := false, syncInterval := 300 },
    status := { latestVersion := 0, message := "", schemaRegistryError := "",
                ready := false } }

/-- A concrete already-converged Schema: its content-hash label holds the
decimal FNV-1a hash of its current content and its status is ready. -/
def exampleReadySchema : Schema :=
  { meta := { name := "s1", ns := "default", instanceLabel := some "sr1",
              contentHashLabel := some (toString (Hash "avro-record-a")),
              prevActiveVersionAnn := none,
              hasSchemaFinalizer := true, hasDeletionTimestamp := false },
    spec := { subject := "s1", target := "VALUE", schemaType := "AVRO",
              content := "avro-record-a", compatibilityLevel := "NONE",
              normalize := false, syncInterval := 300 },
    status := { latestVersion := 1, message := "Schema deployed successfully",
                schemaRegistryError := "", ready := true } }

/-- A registry run in which the register call answers HTTP 409 with a
response-body message. -/
def exampleRegistryEnv409 : RegistryEnv :=
  { registerTransportError := none, registerStatus := 409,
    register422Message := "",
    register409Message := "schema being registered is incompatible with an earlier schema",
    getLatestTransportError := none, getLatestStatus := 200,
    getLatestSchema := { version := 1, id := 7 } }

/-- A registry run in which the register call answers HTTP 500 but the
subsequent fetch-latest answers 200. -/
def exampleRegistryEnv500 : RegistryEnv :=
  { registerTransportError := none, registerStatus := 500,
    register422Message := "", register409Message := "",
    getLatestTransportError := none, getLatestStatus := 200,
    getLatestSchema := { version := 1, id := 7 } }

/-- A subject-deletion pass whose soft-delete call fails at the transport
level (and whose permanent call would succeed). -/
def exampleDeleteEnvSoftFail : DeleteSubjectEnv :=
  { softTransportError := some "connection refused", softStatus := 0,
    hardTransportError := none, hardStatus := 0 }

/-- A version-deletion pass in which the registry no longer holds the entry:
both calls return 404-shaped responses and no client error. -/
def exampleDeleteVersionEnv : DeleteVersionEnv :=
  { softError := none, softRespErrorCode := 40401, hardError := none }

/-- The stored SchemaVersion of ordinal 1 for subject `s1-value`, currently
the active one. -/
def exampleSVv1 : SchemaVersion :=
  { meta := { name := "s1-value-v1", ns := "default", instanceLabel := some "sr1",
              contentHashLabel := none, prevActiveVersionAnn := some "0",
              hasSchemaFinalizer := false, hasDeletionTimestamp := false },
    spec := { subject := "s1-value", version := 1, content := "avro-record-a",
              schemaRegistrySchemaId := 10 },
    status := { active := true, ready := true } }

/-- The freshly created SchemaVersion of ordinal 2 for subject `s1-value`,
its previous-active-version marker naming ordinal 1. -/
def exampleSVv2 : SchemaVersion :=
  { meta := { name := "s1-value-v2", ns := "default", instanceLabel := some "sr1",
              contentHashLabel := none, prevActiveVersionAnn := some "1",
              hasSchemaFinalizer := false, hasDeletionTimestamp := false },
    spec := { subject := "s1-value", version := 2, content := "avro-record-b",
              schemaRegistrySchemaId := 11 },
    status := { active := false, ready := false } }

/-- The SchemaVersion store right after the creation of ordinal 2. -/
def exampleSVStore : List SchemaVersion := [exampleSVv1, exampleSVv2]

/-- C9: for every Schema, the effective subject computed by the reconciler —
`GetSubject` applied after the reconciler's subject-defaulting step, which is
what both the uniqueness check and the registry calls receive — equals the
subject string (defaulting to the object name when the spec's subject is
empty) concatenated with `-` and the lowercased target. -/
theorem c9_effective_subject (s : Schema) :
    GetSubject (defaultSubject s) =
      specEffectiveSubject s.meta.name s.spec.subject s.spec.target := by
  unfold GetSubject defaultSubject specEffectiveSubject
  by_cases h : s.spec.subject = "" <;> simp [h]

/-- C10: the change-detection predicate `Updated` returns true exactly when
the content-hash label is absent or its value differs from the decimal
rendering of the current content hash; a never-converged Schema (no label) is
always treated as changed; and `NotUpdated` is its pointwise negation. -/
theorem c10_updated_predicate (l : Option String) (content : String) :
    (Updated l content = true ↔
      (l = none ∨ ∃ h, l = some h ∧ h ≠ toString (Hash content))) ∧
    Updated none content = true ∧
    NotUpdated l content = !(Updated l content) := by
  refine ⟨?_, rfl, ?_⟩
  · cases l with
    | none => simp [Updated]
    | some v => simp [Updated, bne_iff_ne]
  · cases l with
    | none => rfl
    | some v => simp [Updated, NotUpdated, bne]

/-- C8 counterexample: the strings `ab` and `ba` are permutations of each
other (same characters in a different order) yet their FNV-1a hashes differ,
so `Hash` is not order-independent. -/
theorem c8_order_independence_counterexample :
    ("ab".data).Perm ("ba".data) ∧ Hash "ab" ≠ Hash "ba" := by
  constructor
  · decide
  · decide

/-- C8 (amended): `Hash` is a deterministic fingerprint of the payload's byte
content — any two strings with equal byte sequences hash equally — but it is
order-sensitive: permuted strings can hash differently. -/
theorem c8_hash_deterministic_order_sensitive :
    (∀ s t : String, stringBytes s = stringBytes t → Hash s = Hash t) ∧
    (∃ s t : String, (s.data).Perm (t.data) ∧ Hash s ≠ Hash t) := by
  constructor
  · intro s t h
    unfold Hash
    rw [h]
  · exact ⟨"ab", "ba", by decide, by decide⟩

/-- C8 witness: the determinism half of the amended claim applied at the
concrete payload `ab`. -/
theorem c8_hash_deterministic_witness : Hash "ab" = Hash "ab" :=
  c8_hash_deterministic_order_sensitive.1 "ab" "ab" rfl

/-- C4: evaluating the uniqueness check of the code at a store holding
exactly one Schema — the reconciled object itself, with its subject and
instance label persisted — returns `false`: the object collides with its own
stored copy, though the store contains no other Schema at all. -/
theorem c4_subject_unique_self_collision :
    isSubjectUnique [exampleSchemaS1] exampleSchemaS1 "sr1" = false ∧
    ([exampleSchemaS1].filter (fun o => decide (o ≠ exampleSchemaS1))) = [] := by
  constructor
  · decide
  · decide

/-- C6: on a deletion event the SchemaVersion reconciler's `Get` returns
NotFound, leaving the local object zero-valued, so the instance-association
lookup runs on empty metadata: for every stored set of registry instances and
every registry behaviour, the reconcile returns `ErrInstanceLabelNotFound`
and performs zero registry calls — the two-phase registry delete is never
reached. -/
theorem c6_deletion_event_never_deletes (registries : List SchemaRegistry)
    (env : DeleteVersionEnv) :
    svReconcileDeletionEvent "default" registries env =
      (none, some .errInstanceLabelNotFound, 0) := rfl

/-- C2: evaluating the legacy SchemaVersion activation reconciler at the
creation of ordinal 2 (markers as the Schema reconciler writes them): the new
object is set `active=true, ready=true`, but the previous ordinal's record
keeps `active=true` — the reconciler looked up the wrong name
`s1-value-v2-v1` (built from the new object's full name), failed, and even on
a successful fetch would have written the fetched object back unchanged.  Two
records of the same subject end up active. -/
theorem c2_sibling_deactivation_bug :
    (svActivationReconcileLegacy exampleSVStore "default" "s1-value-v2").2 =
      some (.errStoreNotFound "s1-value-v2-v1") ∧
    ((svGet (svActivationReconcileLegacy exampleSVStore "default" "s1-value-v2").1
        "default" "s1-value-v1").map SchemaVersion.status) =
      some { active := true, ready := true } ∧
    ((svGet (svActivationReconcileLegacy exampleSVStore "default" "s1-value-v2").1
        "default" "s1-value-v2").map SchemaVersion.status) =
      some { active := true, ready := true } := by
  refine ⟨?_, ?_, ?_⟩ <;> decide

/-- C7 counterexample: when the soft-delete call itself fails (transport
error), the reconciler's deletion branch returns the wrapped error after a
single registry call — the permanent delete is NOT attempted — and the
finalizer stays on the object, refuting "unconditionally attempts a permanent
delete of the subject even if the soft delete failed". -/
theorem c7_soft_delete_failure_counterexample :
    (reconcileDeletionBranch exampleSchemaS1 exampleDeleteEnvSoftFail).2.2.2 = 1 ∧
    (reconcileDeletionBranch exampleSchemaS1 exampleDeleteEnvSoftFail).2.2.1 =
      some (.wrapPrefix "failed to delete schema" (.transportErr "connection refused")) ∧
    (reconcileDeletionBranch exampleSchemaS1 exampleDeleteEnvSoftFail).1.meta.hasSchemaFinalizer
      = true := by
  refine ⟨?_, ?_, ?_⟩ <;> decide

/-- C7 (amended): the permanent delete is attempted exactly when the
soft-delete call returns no transport error; the HTTP statuses of both
responses are never inspected, so a subject already absent from the registry
(404 responses) deletes without error, the permanent step's own transport
error is logged but never propagated, and the finalizer is then removed.  A
soft-delete transport error instead aborts after one call with the wrapped
error and leaves the object untouched. -/
theorem c7_two_phase_delete (schema : Schema) (env : DeleteSubjectEnv) :
    (env.softTransportError = none →
      (reconcileDeletionBranch schema env).2.2.2 = 2 ∧
      (reconcileDeletionBranch schema env).2.2.1 = none ∧
      (reconcileDeletionBranch schema env).2.1 = none ∧
      (reconcileDeletionBranch schema env).1.meta.hasSchemaFinalizer = false) ∧
    (∀ m, env.softTransportError = some m →
      (reconcileDeletionBranch schema env).2.2.2 = 1 ∧
      (reconcileDeletionBranch schema env).2.2.1 =
        some (.wrapPrefix "failed to delete schema" (.transportErr m)) ∧
      (reconcileDeletionBranch schema env).1 = schema) := by
  constructor
  · intro hsoft
    cases hhard : env.hardTransportError <;>
      simp [reconcileDeletionBranch, deleteSchemaSubject, hsoft, hhard]
  · intro m hsoft
    simp [reconcileDeletionBranch, deleteSchemaSubject, hsoft]

/-- C7 witness: the amended claim applied at a concrete pass in which the
registry answers 404 to both calls without transport errors. -/
theorem c7_two_phase_delete_witness :
    (reconcileDeletionBranch exampleSchemaS1
        { softTransportError := none, softStatus := 404,
          hardTransportError := none, hardStatus := 404 }).2.2.2 = 2 ∧
    (reconcileDeletionBranch exampleSchemaS1
        { softTransportError := none, softStatus := 404,
          hardTransportError := none, hardStatus := 404 }).2.2.1 = none ∧
    (reconcileDeletionBranch exampleSchemaS1
        { softTransportError := none, softStatus := 404,
          hardTransportError := none, hardStatus := 404 }).2.1 = none ∧
    (reconcileDeletionBranch exampleSchemaS1
        { softTransportError := none, softStatus := 404,
          hardTransportError := none, hardStatus := 404 }).1.meta.hasSchemaFinalizer
      = false :=
  (c7_two_phase_delete exampleSchemaS1
    { softTransportError := none, softStatus := 404,
      hardTransportError := none, hardStatus := 404 }).1 rfl

/-- C3 counterexample: on an HTTP 409 register response, the status field
`SchemaRegistryError` receives `errors.Unwrap(err).Error()` — the sentinel
text "incompatible schema" — and NOT the registry's response-body message;
and when the register call answers a non-2xx status other than 409/422
(here 500) while the follow-up fetch answers 200, the reconcile succeeds
(status `ready`, no error) instead of treating the outcome as an unknown
error. -/
theorem c3_registry_error_counterexample :
    ((upsert exampleSchemaS1 "sr1" exampleRegistryEnv409).1.status.schemaRegistryError =
        "incompatible schema" ∧
      (upsert exampleSchemaS1 "sr1" exampleRegistryEnv409).1.status.schemaRegistryError ≠
        "schema being registered is incompatible with an earlier schema") ∧
    ((upsert exampleSchemaS1 "sr1" exampleRegistryEnv500).1.status.ready = true ∧
      (upsert exampleSchemaS1 "sr1" exampleRegistryEnv500).2.2 = none) := by
  refine ⟨⟨?_, ?_⟩, ?_, ?_⟩ <;> decide

/-- C3 (amended): with no transport error on the register call, an HTTP 409
yields the `IncompatibleSchema` error carrying the registry's message, with
`registryError` set to the sentinel text "incompatible schema" and a
not-ready status; HTTP 422 likewise yields `InvalidSchemaOrType` with
sentinel text "invalid schema or schema type"; any other register status is
not inspected — the reconcile proceeds to the fetch-latest call and reports
the unknown error exactly when that fetch fails or answers non-200. -/
theorem c3_error_mapping (schema : Schema) (registryName : String) (env : RegistryEnv)
    (ht : env.registerTransportError = none) :
    (env.registerStatus = 409 →
      deploySchema schema env = .error (NewIncompatibleSchemaError env.register409Message) ∧
      (upsert schema registryName env).1.status.schemaRegistryError = "incompatible schema" ∧
      (upsert schema registryName env).1.status.ready = false ∧
      (upsert schema registryName env).2.2 =
        some (NewIncompatibleSchemaError env.register409Message)) ∧
    (env.registerStatus = 422 →
      deploySchema schema env = .error (NewInvalidSchemaOrTypeError env.register422Message) ∧
      (upsert schema registryName env).1.status.schemaRegistryError =
        "invalid schema or schema type" ∧
      (upsert schema registryName env).1.status.ready = false ∧
      (upsert schema registryName env).2.2 =
        some (NewInvalidSchemaOrTypeError env.register422Message)) ∧
    (env.registerStatus ≠ 409 → env.registerStatus ≠ 422 →
      (env.getLatestTransportError = none → env.getLatestStatus = 200 →
        deploySchema schema env = .ok env.getLatestSchema ∧
        (upsert schema registryName env).2.2 = none) ∧
      (env.getLatestTransportError = none → env.getLatestStatus ≠ 200 →
        deploySchema schema env = .error .unknownGetSchemaNilErr) ∧
      (∀ m, env.getLatestTransportError = some m →
        deploySchema schema env = .error (.unknownGetSchemaErr (.transportErr m)))) := by
  refine ⟨?_, ?_, ?_⟩
  · intro h409
    have hd : deploySchema schema env =
        .error (NewIncompatibleSchemaError env.register409Message) := by
      simp [deploySchema, ht, h409]
    refine ⟨hd, ?_⟩
    simp [upsert, hd, errorsIs, errorsUnwrap, errorText, NewIncompatibleSchemaError,
      UpdateStatus]
  · intro h422
    have hd : deploySchema schema env =
        .error (NewInvalidSchemaOrTypeError env.register422Message) := by
      simp [deploySchema, ht, h422]
    refine ⟨hd, ?_⟩
    simp [upsert, hd, errorsIs, errorsUnwrap, errorText, NewInvalidSchemaOrTypeError,
      UpdateStatus]
  · intro h409 h422
    refine ⟨?_, ?_, ?_⟩
    · intro hgt hgs
      have hd : deploySchema schema env = .ok env.getLatestSchema := by
        simp [deploySchema, ht, h409, h422, hgt, hgs]
      exact ⟨hd, by simp [upsert, hd]⟩
    · intro hgt hgs
      simp [deploySchema, ht, h409, h422, hgt, hgs]
    · intro m hgt
      simp [deploySchema, ht, h409, h422, hgt]

/-- C3 witness: the amended mapping applied at the concrete HTTP 409 run. -/
theorem c3_error_mapping_witness :
    (upsert exampleSchemaS1 "sr1" exampleRegistryEnv409).1.status.schemaRegistryError =
      "incompatible schema" :=
  ((c3_error_mapping exampleSchemaS1 "sr1" exampleRegistryEnv409 rfl).1 rfl).2.1

/-- C5: for every Schema whose content-hash label equals the decimal hash of
its current content and whose status is already ready, a reconcile pass of
the revision with the fast path takes only that path: zero registry calls,
the ready status re-affirmed with the success message, a requeue on the
revision's resync cadence (one minute, the same delay its success path
schedules), and the SchemaVersion children untouched. -/
theorem c5_idempotent_fast_path (schema : Schema) (registries : List SchemaRegistry)
    (env : RegistryEnv) (children : Nat → Option SVStatus)
    (hhash : schema.meta.contentHashLabel = some (toString (Hash schema.spec.content)))
    (hready : schema.status.ready = true) :
    schemaReconcile schema registries env children =
      ({ schema := UpdateStatus schema true SchemaDeployedSuccess,
         requeueAfterSeconds := some 60, err := none, registryCalls := 0 }, children) := by
  have hupd : Updated schema.meta.contentHashLabel schema.spec.content = false := by
    rw [hhash]
    simp [Updated]
  unfold schemaReconcile
  rw [hupd, hready]
  simp

/-- C5 witness: the fast path applied at a concrete converged ready Schema. -/
theorem c5_idempotent_fast_path_witness :
    schemaReconcile exampleReadySchema [] exampleRegistryEnv500 emptyChildren =
      ({ schema := UpdateStatus exampleReadySchema true SchemaDeployedSuccess,
         requeueAfterSeconds := some 60, err := none, registryCalls := 0 }, emptyChildren) :=
  c5_idempotent_fast_path exampleReadySchema [] exampleRegistryEnv500 emptyChildren rfl rfl

/-- Unfolding of the child-store run over one more successful reconciliation. -/
theorem runVersionChain_concat (vs : List Nat) (v : Nat) :
    runVersionChain (vs ++ [v]) =
      (versionChainStep (runVersionChain vs).1 (runVersionChain vs).2 v, v) := by
  simp [runVersionChain, List.foldl_append]

/-- Pointwise reading of the version-chaining block: the previous ordinal
(when non-zero) is overwritten inactive, the new ordinal is overwritten
active, every other ordinal is untouched. -/
theorem versionChainStep_apply (c : Nat → Option SVStatus) (latest v k : Nat) :
    versionChainStep c latest v k =
      if latest ≠ 0 ∧ k = latest then some { active := false, ready := true }
      else if k = v then some { active := true, ready := true }
      else c k := by
  unfold versionChainStep setChildStatus
  by_cases h0 : latest = 0
  · simp [h0]
  · by_cases hkl : k = latest
    · simp [h0, hkl]
    · simp [h0, hkl]

/-- Characterization of the child store after a run of successful
reconciliations with positive, strictly increasing registry-assigned
ordinals: every created ordinal holds a ready child that is active exactly
when it is the final recorded `LatestVersion`, and no other child exists. -/
theorem runVersionChain_char (vs : List Nat) (hpos : ∀ v ∈ vs, 1 ≤ v)
    (hsorted : vs.Pairwise (· < ·)) :
    ((runVersionChain vs).2 = 0 ∨ (runVersionChain vs).2 ∈ vs) ∧
    (∀ k, (runVersionChain vs).1 k =
      if k ∈ vs then some { active := decide (k = (runVersionChain vs).2), ready := true }
      else none) := by
  induction vs using List.reverseRecOn with
  | nil =>
    refine ⟨Or.inl rfl, fun k => ?_⟩
    simp [runVersionChain, emptyChildren]
  | append_singleton vs v ih =>
    have hpos' : ∀ u ∈ vs, 1 ≤ u := fun u hu => hpos u (by simp [hu])
    have hlt : ∀ u ∈ vs, u < v := by
      intro u hu
      exact (List.pairwise_append.mp hsorted).2.2 u hu v (by simp)
    have hsorted' : vs.Pairwise (· < ·) := (List.pairwise_append.mp hsorted).1
    obtain ⟨ihl, ihc⟩ := ih hpos' hsorted'
    constructor
    · simp only [runVersionChain_concat]
      exact Or.inr (by simp)
    · intro k
      simp only [runVersionChain_concat]
      rw [versionChainStep_apply, ihc k]
      by_cases hcond : (runVersionChain vs).2 ≠ 0 ∧ k = (runVersionChain vs).2
      · obtain ⟨hL0, hkL⟩ := hcond
        have hLmem : (runVersionChain vs).2 ∈ vs := by
          rcases ihl with h | h
          · exact absurd h hL0
          · exact h
        have hkin : k ∈ vs ++ [v] := by
          rw [hkL]
          simp [hLmem]
        have hkv : ¬(k = v) := by
          have := hlt _ hLmem
          omega
        rw [if_pos ⟨hL0, hkL⟩, if_pos hkin]
        have hdec : decide (k = v) = false := by simp [hkv]
        rw [hdec]
      · rw [if_neg hcond]
        by_cases hkv : k = v
        · have hkin : k ∈ vs ++ [v] := by simp [hkv]
          rw [if_pos hkv, if_pos hkin]
          have hdec : decide (k = v) = true := by simp [hkv]
          rw [hdec]
        · rw [if_neg hkv]
          by_cases hkin : k ∈ vs
          · have hk2 : k ∈ vs ++ [v] := by simp [hkin]
            rw [if_pos hkin, if_pos hk2]
            have hkL : ¬(k = (runVersionChain vs).2) := by
              intro he
              apply hcond
              refine ⟨?_, he⟩
              intro h0
              have h1k := hpos' k hkin
              omega
            have hd1 : decide (k = (runVersionChain vs).2) = false := by simp [hkL]
            have hd2 : decide (k = v) = false := by simp [hkv]
            rw [hd1, hd2]
          · have hk2 : ¬(k ∈ vs ++ [v]) := by simp [hkin, hkv]
            rw [if_neg hkin, if_neg hk2]

/-- C1: after a sequence of successful Schema reconciliations for one subject
— each creating the fresh child for its registry-assigned ordinal (positive,
strictly increasing) and running the version-chaining block — the child of
the most recently created ordinal `vN` is the only one with `active = true`:
every earlier child exists with `active = false, ready = true`, no child
exists outside the created ordinals, and no two distinct ordinals are active
at once (the at-most-one-active invariant at the quiescent point). -/
theorem c1_single_active_version (vs : List Nat) (vN : Nat)
    (hpos : ∀ v ∈ vs ++ [vN], 1 ≤ v)
    (hsorted : (vs ++ [vN]).Pairwise (· < ·)) :
    (∀ k, k ∈ vs ++ [vN] → (runVersionChain (vs ++ [vN])).1 k =
        some { active := decide (k = vN), ready := true }) ∧
    (∀ k, ¬(k ∈ vs ++ [vN]) → (runVersionChain (vs ++ [vN])).1 k = none) ∧
    (∀ j k, childActive (runVersionChain (vs ++ [vN])).1 j = true →
        childActive (runVersionChain (vs ++ [vN])).1 k = true → j = k) := by
  obtain ⟨-, hc⟩ := runVersionChain_char (vs ++ [vN]) hpos hsorted
  have hsnd : (runVersionChain (vs ++ [vN])).2 = vN := by
    rw [runVersionChain_concat]
  have hc' : ∀ k, (runVersionChain (vs ++ [vN])).1 k =
      if k ∈ vs ++ [vN] then some { active := decide (k = vN), ready := true } else none := by
    intro k
    rw [hc k, hsnd]
  have hact : ∀ j, childActive (runVersionChain (vs ++ [vN])).1 j = true → j = vN := by
    intro j hj
    by_cases hjin : j ∈ vs ++ [vN]
    · rw [childActive, hc' j, if_pos hjin] at hj
      simpa using hj
    · rw [childActive, hc' j, if_neg hjin] at hj
      simp at hj
  refine ⟨fun k hk => by rw [hc' k, if_pos hk], fun k hk => by rw [hc' k, if_neg hk], ?_⟩
  intro j k hj hk
  rw [hact j hj, hact k hk]

/-- C1 witness: three sequential successful reconciliations with ordinals
1, 2, 3 — the earlier child 2 is inactive and ready, the latest child 3 is
active and ready. -/
theorem c1_single_active_version_witness :
    (runVersionChain ([1, 2] ++ [3])).1 2 =
      some { active := decide ((2 : Nat) = 3), ready := true } ∧
    (runVersionChain ([1, 2] ++ [3])).1 3 =
      some { active := decide ((3 : Nat) = 3), ready := true } :=
  ⟨(c1_single_active_version [1, 2] 3 (by decide) (by decide)).1 2 (by decide),
   (c1_single_active_version [1, 2] 3 (by decide) (by decide)).1 3 (by decide)⟩

end SRO
